import Mathlib

/-!
Verification of `src/formatRelative/index.ts` of the date-fns repository.

The single source file under verification is `formatRelative`.  Its
collaborators (`toDate`, `differenceInCalendarDays`, `subMilliseconds`,
`getTimezoneOffsetInMilliseconds`, `toInteger`, `requiredArgs`,
`defaultLocale`, the process-wide default options and the generic `format`)
live outside the provided sources; the specification (sections 3, 6 and 9)
fixes their contracts, and they are modelled here from those words.  The
decision logic of `formatRelative` itself is translated line by line from
the TypeScript source.
-/

namespace DateFns

/-- An instant: a JavaScript `Date` value reduced to its millisecond
timestamp.  `none` models an Invalid Date (a `NaN` time value). -/
abbrev Instant := Option Int

/-- The six relative-distance classifications (`FormatRelativeToken` in
`src/locale/types`). -/
inductive FormatRelativeToken where
  | lastWeek
  | yesterday
  | today
  | tomorrow
  | nextWeek
  | other
  deriving DecidableEq, Repr

/-- A `Date | number` argument as accepted by `formatRelative`; either
carries `none` when the underlying time value is `NaN`. -/
inductive DateInput where
  | jsDate (time : Instant)
  | jsNumber (value : Instant)
  deriving DecidableEq, Repr

/-- Modelled from the spec: `toDate(input) -> Instant` coerces a date-like
or numeric input into an internal instant; invalid input yields a
representation that downstream difference computation recognizes as
not-a-number (section 6).  Here both input forms already carry their time
value, with `none` for the invalid case. -/
def toDate : DateInput → Instant
  | .jsDate t => t
  | .jsNumber v => v

/-- Locale-level default options (the `options` field of a locale object),
source of the fallback `weekStartsOn`. -/
structure LocaleDefaults where
  weekStartsOn : Option Rat := none

/-- Modelled from the spec: a locale is a capability bundle exposing
`localize`, `formatLong` and `formatRelative` (sections 3 and 6).  The
first two are only tested for presence by this component, so they are
modelled as presence flags; `formatRelative` is called, so it is modelled
as an optional pattern-selection function
`(token, utcDate, utcBaseDate, weekStartsOn) -> patternString` (the
`locale` member of its options argument is the locale itself and is
dropped to keep the structure well-founded). -/
structure Locale where
  localize : Bool
  formatLong : Bool
  formatRelative : Option (FormatRelativeToken → Instant → Instant → Int → String)
  options : Option LocaleDefaults := none

/-- The recognized option fields of `formatRelative` (interface
`FormatRelativeOptions`). -/
structure FormatRelativeOptions where
  locale : Option Locale := none
  weekStartsOn : Option Rat := none

/-- Modelled from the spec: the process-wide default options object, a
read-only source of fallback `locale` and `weekStartsOn` (section 6);
injected as a parameter per the configuration-provider guidance of
section 9. -/
structure DefaultOptions where
  locale : Option Locale := none
  weekStartsOn : Option Rat := none

/-- The errors `formatRelative` can surface: JavaScript `TypeError` and
`RangeError` values, reduced to their constructor and message. -/
inductive JsError where
  | typeError (msg : String)
  | rangeError (msg : String)
  deriving DecidableEq, Repr

/-- Modelled from the spec: the external collaborators of section 6 whose
behaviour is opaque to this component.  `calendarDayIndex` assigns each
valid timestamp its local-calendar-day index (glossary: calendar-day
difference is the difference of these indices, not a 24-hour division);
`tzOffsetMs` is the local-to-UTC offset applicable at a valid instant;
`render` is the generic `format(instant, patternString, {locale,
weekStartsOn})` routine, out of scope here. -/
structure Env where
  calendarDayIndex : Int → Int
  tzOffsetMs : Int → Int
  render : Instant → String → Locale → Int → String

/-- Modelled from the spec: `differenceInCalendarDays(a, b)` is the signed
count of calendar-day boundaries between `a` and `b`, i.e. the difference
of their local-calendar-day indices, and is not-a-number (`none`) if
either input is invalid (sections 4.1 step 1 and 6). -/
def differenceInCalendarDays (env : Env) : Instant → Instant → Option Int
  | some a, some b => some (env.calendarDayIndex a - env.calendarDayIndex b)
  | _, _ => none

/-- Modelled from the spec: `getTimezoneOffsetInMilliseconds(instant)` is
the local-to-UTC offset applicable at that instant (section 6); on an
invalid instant the offset is itself not-a-number. -/
def getTimezoneOffsetInMilliseconds (env : Env) : Instant → Option Int
  | some t => some (env.tzOffsetMs t)
  | none => none

/-- Modelled from the spec: `subMilliseconds(instant, ms)` is an
arithmetic shift (section 6); a `NaN` on either side propagates. -/
def subMilliseconds : Instant → Option Int → Instant
  | some t, some ms => some (t - ms)
  | _, _ => none

/-- Modelled from the spec: `toInteger(value)` performs numeric
coercion/truncation (toward zero) for option fields (section 6). -/
def toInteger (x : Rat) : Int :=
  if x < 0 then -((-x).floor) else x.floor

/-- Modelled from the spec: `requiredArgs(required, arguments)` raises an
argument-count (arity) error when fewer than the required positional
arguments are supplied, before any date parsing (sections 4.1 and 7). -/
def requiredArgs (required provided : Nat) : Except JsError Unit :=
  if provided < required then
    .error (.typeError (toString required ++ " arguments required, but only "
      ++ toString provided ++ " present"))
  else
    .ok ()

/-- Modelled from the spec: the pattern-selection capability of the
built-in default locale.  The concrete pattern table is locale text, out
of scope (section 6); it is modelled as a token-keyed pattern string. -/
def defaultLocaleFormatRelative :
    FormatRelativeToken → Instant → Instant → Int → String :=
  fun t _ _ _ =>
    match t with
    | .lastWeek => "default:lastWeek"
    | .yesterday => "default:yesterday"
    | .today => "default:today"
    | .tomorrow => "default:tomorrow"
    | .nextWeek => "default:nextWeek"
    | .other => "default:other"

/-- Modelled from the spec: the built-in default locale
(`src/_lib/defaultLocale`, outside the provided sources) is a complete
locale capability bundle exposing `localize`, `formatLong` and
`formatRelative` (sections 3 and 6). -/
def defaultLocale : Locale where
  localize := true
  formatLong := true
  formatRelative := some defaultLocaleFormatRelative
  options := none

/-- The locale resolution of `formatRelative`
(`options?.locale ?? defaultOptions.locale ?? defaultLocale`, source line
66). -/
def resolveLocale (options : Option FormatRelativeOptions)
    (defaultOptions : DefaultOptions) : Locale :=
  ((options.bind FormatRelativeOptions.locale) <|> defaultOptions.locale).getD
    defaultLocale

/-- The `weekStartsOn` resolution of `formatRelative` (source lines
68–74): integer coercion of
`options?.weekStartsOn ?? options?.locale?.options?.weekStartsOn ??
defaultOptions.weekStartsOn ?? defaultOptions.locale?.options?.weekStartsOn
?? 0`. -/
def resolveWeekStartsOn (options : Option FormatRelativeOptions)
    (defaultOptions : DefaultOptions) : Int :=
  toInteger
    (((options.bind FormatRelativeOptions.weekStartsOn) <|>
      (((options.bind FormatRelativeOptions.locale).bind Locale.options).bind
        LocaleDefaults.weekStartsOn) <|>
      defaultOptions.weekStartsOn <|>
      ((defaultOptions.locale.bind Locale.options).bind
        LocaleDefaults.weekStartsOn)).getD 0)

/-- The token cascade of `formatRelative` (source lines 94–109): a chain
of `<` comparisons classifying the calendar-day difference. -/
def tokenFor (diff : Int) : FormatRelativeToken :=
  if diff < -6 then .other
  else if diff < -1 then .lastWeek
  else if diff < 0 then .yesterday
  else if diff < 1 then .today
  else if diff < 2 then .tomorrow
  else if diff < 7 then .nextWeek
  else .other

/-- The `formatRelative` function, translated from
`src/formatRelative/index.ts` lines 56–120.  `argsLength` is the number of
positional arguments supplied at the call site (JavaScript `arguments`);
`env` carries the opaque collaborators and `defaultOptions` the
process-wide defaults. -/
def formatRelative (env : Env) (defaultOptions : DefaultOptions)
    (argsLength : Nat) (dirtyDate dirtyBaseDate : DateInput)
    (options : Option FormatRelativeOptions) : Except JsError String :=
  match requiredArgs 2 argsLength with
  | .error e => .error e
  | .ok _ =>
    let date := toDate dirtyDate
    let baseDate := toDate dirtyBaseDate
    let locale := resolveLocale options defaultOptions
    let weekStartsOn := resolveWeekStartsOn options defaultOptions
    if locale.localize = false then
      .error (.rangeError "locale must contain localize property")
    else if locale.formatLong = false then
      .error (.rangeError "locale must contain formatLong property")
    else
      match locale.formatRelative with
      | none => .error (.rangeError "locale must contain formatRelative property")
      | some fr =>
        match differenceInCalendarDays env date baseDate with
        | none => .error (.rangeError "Invalid time value")
        | some diff =>
          let token := tokenFor diff
          let utcDate :=
            subMilliseconds date (getTimezoneOffsetInMilliseconds env date)
          let utcBaseDate :=
            subMilliseconds baseDate (getTimezoneOffsetInMilliseconds env baseDate)
          let formatStr := fr token utcDate utcBaseDate weekStartsOn
          .ok (env.render date formatStr locale weekStartsOn)

/-- A concrete pattern-selection function used to instantiate the
theorems below on closed inputs. -/
def testPatterns : FormatRelativeToken → Instant → Instant → Int → String :=
  fun t _ _ _ =>
    match t with
    | .lastWeek => "test:lastWeek"
    | .yesterday => "test:yesterday"
    | .today => "test:today"
    | .tomorrow => "test:tomorrow"
    | .nextWeek => "test:nextWeek"
    | .other => "test:other"

/-- A concrete collaborator environment used to instantiate the theorems
below: calendar days are indexed by dividing milliseconds, the timezone
offset is zero, and the renderer returns the pattern string. -/
def testEnv : Env where
  calendarDayIndex := fun t => t / 86400000
  tzOffsetMs := fun _ => 0
  render := fun _ p _ _ => p

/-- A locale exposing all three capabilities, used to instantiate the
theorems below. -/
def fullLocale : Locale where
  localize := true
  formatLong := true
  formatRelative := some testPatterns
  options := none

/-- A locale exposing `localize` and `formatLong` but lacking
`formatRelative`, used to instantiate the theorems below. -/
def localeNoFr : Locale where
  localize := true
  formatLong := true
  formatRelative := none
  options := none

/-- A `NaN` on the left makes the calendar-day difference `NaN`. -/
theorem differenceInCalendarDays_none_left (env : Env) (b : Instant) :
    differenceInCalendarDays env none b = none := by
  cases b <;> rfl

/-- A `NaN` on the right makes the calendar-day difference `NaN`. -/
theorem differenceInCalendarDays_none_right (env : Env) (a : Instant) :
    differenceInCalendarDays env a none = none := by
  cases a <;> rfl

/-- `requiredArgs` succeeds when enough arguments are supplied. -/
theorem requiredArgs_ok (required provided : Nat) (h : required ≤ provided) :
    requiredArgs required provided = .ok () := by
  unfold requiredArgs
  rw [if_neg (by omega)]

/-- `requiredArgs` fails with the arity message when arguments are
missing. -/
theorem requiredArgs_error (required provided : Nat) (h : provided < required) :
    requiredArgs required provided =
      .error (.typeError (toString required ++ " arguments required, but only "
        ++ toString provided ++ " present")) := by
  unfold requiredArgs
  rw [if_pos h]

/-- Branch lemma: with fewer than two arguments, `formatRelative` stops
with the arity error, whatever the remaining arguments are. -/
theorem formatRelative_eq_arity_error (env : Env)
    (defaultOptions : DefaultOptions) (argsLength : Nat)
    (dirtyDate dirtyBaseDate : DateInput)
    (options : Option FormatRelativeOptions) (h : argsLength < 2) :
    formatRelative env defaultOptions argsLength dirtyDate dirtyBaseDate options =
      .error (.typeError ("2 arguments required, but only "
        ++ toString argsLength ++ " present")) := by
  unfold formatRelative
  rw [requiredArgs_error 2 argsLength h]
  rfl

/-- Branch lemma: with enough arguments and a resolved locale lacking
`localize`, `formatRelative` stops with the `localize` error. -/
theorem formatRelative_eq_localize_error (env : Env)
    (defaultOptions : DefaultOptions) (argsLength : Nat)
    (dirtyDate dirtyBaseDate : DateInput)
    (options : Option FormatRelativeOptions) (hargs : 2 ≤ argsLength)
    (hloc : (resolveLocale options defaultOptions).localize = false) :
    formatRelative env defaultOptions argsLength dirtyDate dirtyBaseDate options =
      .error (.rangeError "locale must contain localize property") := by
  unfold formatRelative
  rw [requiredArgs_ok 2 argsLength hargs]
  simp [hloc]

/-- Branch lemma: `localize` present but `formatLong` absent gives the
`formatLong` error. -/
theorem formatRelative_eq_formatLong_error (env : Env)
    (defaultOptions : DefaultOptions) (argsLength : Nat)
    (dirtyDate dirtyBaseDate : DateInput)
    (options : Option FormatRelativeOptions) (hargs : 2 ≤ argsLength)
    (hloc : (resolveLocale options defaultOptions).localize = true)
    (hlong : (resolveLocale options defaultOptions).formatLong = false) :
    formatRelative env defaultOptions argsLength dirtyDate dirtyBaseDate options =
      .error (.rangeError "locale must contain formatLong property") := by
  unfold formatRelative
  rw [requiredArgs_ok 2 argsLength hargs]
  simp [hloc, hlong]

/-- Branch lemma: `localize` and `formatLong` present but
`formatRelative` absent gives the `formatRelative` error, whatever the
date arguments are. -/
theorem formatRelative_eq_fr_error (env : Env)
    (defaultOptions : DefaultOptions) (argsLength : Nat)
    (dirtyDate dirtyBaseDate : DateInput)
    (options : Option FormatRelativeOptions) (hargs : 2 ≤ argsLength)
    (hloc : (resolveLocale options defaultOptions).localize = true)
    (hlong : (resolveLocale options defaultOptions).formatLong = true)
    (hfr : (resolveLocale options defaultOptions).formatRelative = none) :
    formatRelative env defaultOptions argsLength dirtyDate dirtyBaseDate options =
      .error (.rangeError "locale must contain formatRelative property") := by
  unfold formatRelative
  rw [requiredArgs_ok 2 argsLength hargs]
  simp [hloc, hlong, hfr]

/-- Branch lemma: a fully capable locale but an invalid date on either
side gives the invalid-time-value error. -/
theorem formatRelative_eq_invalid_time (env : Env)
    (defaultOptions : DefaultOptions) (argsLength : Nat)
    (dirtyDate dirtyBaseDate : DateInput)
    (options : Option FormatRelativeOptions)
    (fr : FormatRelativeToken → Instant → Instant → Int → String)
    (hargs : 2 ≤ argsLength)
    (hloc : (resolveLocale options defaultOptions).localize = true)
    (hlong : (resolveLocale options defaultOptions).formatLong = true)
    (hfr : (resolveLocale options defaultOptions).formatRelative = some fr)
    (hbad : toDate dirtyDate = none ∨ toDate dirtyBaseDate = none) :
    formatRelative env defaultOptions argsLength dirtyDate dirtyBaseDate options =
      .error (.rangeError "Invalid time value") := by
  unfold formatRelative
  rw [requiredArgs_ok 2 argsLength hargs]
  rcases hbad with hd | hb
  · simp [hloc, hlong, hfr, hd, differenceInCalendarDays_none_left]
  · simp [hloc, hlong, hfr, hb, differenceInCalendarDays_none_right]

/-- Branch lemma: on a full success path, the result is the generic
renderer applied to the original date, the pattern chosen by the locale
from the token, the UTC-shifted copies and the resolved week start. -/
theorem formatRelative_eq_ok (env : Env) (defaultOptions : DefaultOptions)
    (argsLength : Nat) (dirtyDate dirtyBaseDate : DateInput)
    (options : Option FormatRelativeOptions)
    (fr : FormatRelativeToken → Instant → Instant → Int → String)
    (td tb : Int)
    (hargs : 2 ≤ argsLength)
    (hloc : (resolveLocale options defaultOptions).localize = true)
    (hlong : (resolveLocale options defaultOptions).formatLong = true)
    (hfr : (resolveLocale options defaultOptions).formatRelative = some fr)
    (hd : toDate dirtyDate = some td)
    (hb : toDate dirtyBaseDate = some tb) :
    formatRelative env defaultOptions argsLength dirtyDate dirtyBaseDate options =
      .ok (env.render (some td)
        (fr (tokenFor (env.calendarDayIndex td - env.calendarDayIndex tb))
          (some (td - env.tzOffsetMs td))
          (some (tb - env.tzOffsetMs tb))
          (resolveWeekStartsOn options defaultOptions))
        (resolveLocale options defaultOptions)
        (resolveWeekStartsOn options defaultOptions)) := by
  unfold formatRelative
  rw [requiredArgs_ok 2 argsLength hargs]
  simp [hloc, hlong, hfr, hd, hb, differenceInCalendarDays,
    getTimezoneOffsetInMilliseconds, subMilliseconds]

/-- C1: the token chosen by `formatRelative` is the deterministic, total
function `tokenFor` of the integer calendar-day difference, given by the
six-bucket cascade: `diff < -6` gives `other`, `-6 ≤ diff < -1` gives
`lastWeek`, `diff = -1` gives `yesterday`, `diff = 0` gives `today`,
`diff = 1` gives `tomorrow`, `2 ≤ diff < 7` gives `nextWeek`, and
`diff ≥ 7` gives `other`; in particular `-7 ↦ other`, `-6 ↦ lastWeek`,
`-1 ↦ yesterday`, `0 ↦ today`, `1 ↦ tomorrow`, `6 ↦ nextWeek`,
`7 ↦ other`. -/
theorem tokenFor_six_buckets (diff : Int) :
    (diff < -6 → tokenFor diff = .other) ∧
    (-6 ≤ diff → diff < -1 → tokenFor diff = .lastWeek) ∧
    (diff = -1 → tokenFor diff = .yesterday) ∧
    (diff = 0 → tokenFor diff = .today) ∧
    (diff = 1 → tokenFor diff = .tomorrow) ∧
    (2 ≤ diff → diff < 7 → tokenFor diff = .nextWeek) ∧
    (7 ≤ diff → tokenFor diff = .other) ∧
    tokenFor (-7) = .other ∧ tokenFor (-6) = .lastWeek ∧
    tokenFor (-1) = .yesterday ∧ tokenFor 0 = .today ∧
    tokenFor 1 = .tomorrow ∧ tokenFor 6 = .nextWeek ∧
    tokenFor 7 = .other := by
  refine ⟨?_, ?_, ?_, ?_, ?_, ?_, ?_, by decide, by decide, by decide,
    by decide, by decide, by decide, by decide⟩
  · intro h
    unfold tokenFor
    rw [if_pos h]
  · intro h h2
    unfold tokenFor
    rw [if_neg (by omega), if_pos h2]
  · intro h
    subst h
    decide
  · intro h
    subst h
    decide
  · intro h
    subst h
    decide
  · intro h h2
    unfold tokenFor
    rw [if_neg (by omega), if_neg (by omega), if_neg (by omega),
      if_neg (by omega), if_neg (by omega), if_pos h2]
  · intro h
    unfold tokenFor
    rw [if_neg (by omega), if_neg (by omega), if_neg (by omega),
      if_neg (by omega), if_neg (by omega), if_neg (by omega)]

/-- Witness for C1: the bucket implications hold at the concrete input
`-6`. -/
theorem tokenFor_six_buckets_witness : tokenFor (-6) = .lastWeek :=
  (tokenFor_six_buckets (-6)).2.1 (by decide) (by decide)

/-- C2: when either input coerces to an invalid instant, so that the
calendar-day difference is not-a-number, `formatRelative` raises the
invalid-time-value error (a `RangeError` with message `Invalid time
value`) and never returns a string by silent fallback. -/
theorem formatRelative_invalid_input_raises (env : Env)
    (defaultOptions : DefaultOptions) (argsLength : Nat)
    (dirtyDate dirtyBaseDate : DateInput)
    (options : Option FormatRelativeOptions)
    (fr : FormatRelativeToken → Instant → Instant → Int → String)
    (hargs : 2 ≤ argsLength)
    (hloc : (resolveLocale options defaultOptions).localize = true)
    (hlong : (resolveLocale options defaultOptions).formatLong = true)
    (hfr : (resolveLocale options defaultOptions).formatRelative = some fr)
    (hbad : toDate dirtyDate = none ∨ toDate dirtyBaseDate = none) :
    formatRelative env defaultOptions argsLength dirtyDate dirtyBaseDate options =
      .error (.rangeError "Invalid time value") :=
  formatRelative_eq_invalid_time env defaultOptions argsLength dirtyDate
    dirtyBaseDate options fr hargs hloc hlong hfr hbad

/-- Witness for C2: an Invalid Date as first argument, against a fully
capable locale, raises exactly the invalid-time-value error. -/
theorem formatRelative_invalid_input_raises_witness :
    formatRelative testEnv {} 2 (.jsDate none) (.jsDate (some 0))
      (some { locale := some fullLocale }) =
      .error (.rangeError "Invalid time value") :=
  formatRelative_invalid_input_raises testEnv {} 2 (.jsDate none)
    (.jsDate (some 0)) (some { locale := some fullLocale }) testPatterns
    (by omega) rfl rfl rfl (Or.inl rfl)

/-- C3: the resolved locale undergoes three independent presence checks,
for `localize`, `formatLong` and `formatRelative`, and the absence of any
one raises a distinct error naming exactly that property; in particular a
locale with `localize` and `formatLong` but without `formatRelative`
raises the `locale must contain formatRelative property` error. -/
theorem formatRelative_capability_checks (env : Env)
    (defaultOptions : DefaultOptions) (argsLength : Nat)
    (dirtyDate dirtyBaseDate : DateInput)
    (options : Option FormatRelativeOptions) (hargs : 2 ≤ argsLength) :
    ((resolveLocale options defaultOptions).localize = false →
      formatRelative env defaultOptions argsLength dirtyDate dirtyBaseDate
        options = .error (.rangeError "locale must contain localize property")) ∧
    ((resolveLocale options defaultOptions).localize = true →
      (resolveLocale options defaultOptions).formatLong = false →
      formatRelative env defaultOptions argsLength dirtyDate dirtyBaseDate
        options = .error (.rangeError "locale must contain formatLong property")) ∧
    ((resolveLocale options defaultOptions).localize = true →
      (resolveLocale options defaultOptions).formatLong = true →
      (resolveLocale options defaultOptions).formatRelative = none →
      formatRelative env defaultOptions argsLength dirtyDate dirtyBaseDate
        options = .error (.rangeError "locale must contain formatRelative property")) :=
  ⟨fun h => formatRelative_eq_localize_error env defaultOptions argsLength
      dirtyDate dirtyBaseDate options hargs h,
   fun h1 h2 => formatRelative_eq_formatLong_error env defaultOptions argsLength
      dirtyDate dirtyBaseDate options hargs h1 h2,
   fun h1 h2 h3 => formatRelative_eq_fr_error env defaultOptions argsLength
      dirtyDate dirtyBaseDate options hargs h1 h2 h3⟩

/-- Witness for C3: a locale with `localize` and `formatLong` but without
`formatRelative` raises exactly the `formatRelative` capability error. -/
theorem formatRelative_capability_checks_witness :
    formatRelative testEnv {} 2 (.jsDate (some 0)) (.jsDate (some 0))
      (some { locale := some localeNoFr }) =
      .error (.rangeError "locale must contain formatRelative property") :=
  (formatRelative_capability_checks testEnv {} 2 (.jsDate (some 0))
    (.jsDate (some 0)) (some { locale := some localeNoFr })
    (by omega)).2.2 rfl rfl rfl

/-- C4: with fewer than two positional arguments, `formatRelative` raises
the argument-count error; the check precedes any date coercion, so the
outcome is the arity error whatever the date arguments and the locale
are, including invalid ones. -/
theorem formatRelative_arity_check (env : Env)
    (defaultOptions : DefaultOptions) (argsLength : Nat)
    (dirtyDate dirtyBaseDate : DateInput)
    (options : Option FormatRelativeOptions) (h : argsLength < 2) :
    formatRelative env defaultOptions argsLength dirtyDate dirtyBaseDate options =
      .error (.typeError ("2 arguments required, but only "
        ++ toString argsLength ++ " present")) :=
  formatRelative_eq_arity_error env defaultOptions argsLength dirtyDate
    dirtyBaseDate options h

/-- Witness for C4: one argument, both dates invalid, still yields
exactly the arity error. -/
theorem formatRelative_arity_check_witness :
    formatRelative testEnv {} 1 (.jsDate none) (.jsDate none) none =
      .error (.typeError ("2 arguments required, but only "
        ++ toString 1 ++ " present")) :=
  formatRelative_arity_check testEnv {} 1 (.jsDate none) (.jsDate none) none
    (by omega)

/-- C5: the effective `weekStartsOn` is the integer coercion of the first
defined value in the priority chain: explicit option, then the option
locale's own configured default, then the process-wide default option,
then the process-wide default locale's configured default, then the
literal `0`. -/
theorem resolveWeekStartsOn_priority (options : Option FormatRelativeOptions)
    (defaultOptions : DefaultOptions) :
    (∀ w, options.bind FormatRelativeOptions.weekStartsOn = some w →
      resolveWeekStartsOn options defaultOptions = toInteger w) ∧
    (options.bind FormatRelativeOptions.weekStartsOn = none →
      ∀ w, ((options.bind FormatRelativeOptions.locale).bind
          Locale.options).bind LocaleDefaults.weekStartsOn = some w →
      resolveWeekStartsOn options defaultOptions = toInteger w) ∧
    (options.bind FormatRelativeOptions.weekStartsOn = none →
      ((options.bind FormatRelativeOptions.locale).bind
        Locale.options).bind LocaleDefaults.weekStartsOn = none →
      ∀ w, defaultOptions.weekStartsOn = some w →
      resolveWeekStartsOn options defaultOptions = toInteger w) ∧
    (options.bind FormatRelativeOptions.weekStartsOn = none →
      ((options.bind FormatRelativeOptions.locale).bind
        Locale.options).bind LocaleDefaults.weekStartsOn = none →
      defaultOptions.weekStartsOn = none →
      ∀ w, (defaultOptions.locale.bind Locale.options).bind
        LocaleDefaults.weekStartsOn = some w →
      resolveWeekStartsOn options defaultOptions = toInteger w) ∧
    (options.bind FormatRelativeOptions.weekStartsOn = none →
      ((options.bind FormatRelativeOptions.locale).bind
        Locale.options).bind LocaleDefaults.weekStartsOn = none →
      defaultOptions.weekStartsOn = none →
      (defaultOptions.locale.bind Locale.options).bind
        LocaleDefaults.weekStartsOn = none →
      resolveWeekStartsOn options defaultOptions = 0) := by
  refine ⟨?_, ?_, ?_, ?_, ?_⟩
  · intro w h1
    unfold resolveWeekStartsOn
    rw [h1]
    rfl
  · intro h1 w h2
    unfold resolveWeekStartsOn
    rw [h1, h2]
    rfl
  · intro h1 h2 w h3
    unfold resolveWeekStartsOn
    rw [h1, h2, h3]
    rfl
  · intro h1 h2 h3 w h4
    unfold resolveWeekStartsOn
    rw [h1, h2, h3, h4]
    rfl
  · intro h1 h2 h3 h4
    unfold resolveWeekStartsOn
    rw [h1, h2, h3, h4]
    rfl

/-- Witness for C5: an explicit `weekStartsOn` option of `9/2` wins over a
default-options value and is truncated to the integer `4`. -/
theorem resolveWeekStartsOn_priority_witness :
    resolveWeekStartsOn (some { weekStartsOn := some (9 / 2 : Rat) })
      { weekStartsOn := some 1 } = toInteger (9 / 2 : Rat) :=
  (resolveWeekStartsOn_priority (some { weekStartsOn := some (9 / 2 : Rat) })
    { weekStartsOn := some 1 }).1 (9 / 2 : Rat) rfl

/-- C6: on valid inputs, `formatRelative` hands the locale's
pattern-selection call UTC-normalized copies of `date` and `baseDate`,
each shifted by that instant's own independently computed timezone
offset, selects the token from the calendar-day difference of the
original (pre-normalization) instants, and renders the original,
non-UTC-adjusted `date` against the returned pattern with the resolved
locale and week start. -/
theorem formatRelative_utc_normalization (env : Env)
    (defaultOptions : DefaultOptions) (argsLength : Nat)
    (dirtyDate dirtyBaseDate : DateInput)
    (options : Option FormatRelativeOptions)
    (fr : FormatRelativeToken → Instant → Instant → Int → String)
    (td tb : Int)
    (hargs : 2 ≤ argsLength)
    (hloc : (resolveLocale options defaultOptions).localize = true)
    (hlong : (resolveLocale options defaultOptions).formatLong = true)
    (hfr : (resolveLocale options defaultOptions).formatRelative = some fr)
    (hd : toDate dirtyDate = some td)
    (hb : toDate dirtyBaseDate = some tb) :
    formatRelative env defaultOptions argsLength dirtyDate dirtyBaseDate options =
      .ok (env.render (some td)
        (fr (tokenFor (env.calendarDayIndex td - env.calendarDayIndex tb))
          (some (td - env.tzOffsetMs td))
          (some (tb - env.tzOffsetMs tb))
          (resolveWeekStartsOn options defaultOptions))
        (resolveLocale options defaultOptions)
        (resolveWeekStartsOn options defaultOptions)) :=
  formatRelative_eq_ok env defaultOptions argsLength dirtyDate dirtyBaseDate
    options fr td tb hargs hloc hlong hfr hd hb

/-- Witness for C6: concrete instants one calendar day apart with
distinct timezone offsets; the pattern call receives each instant shifted
by its own offset and the render call receives the original date. -/
theorem formatRelative_utc_normalization_witness :
    formatRelative
      { calendarDayIndex := fun t => t, tzOffsetMs := fun t => t + 1,
        render := fun _ p _ _ => p } {} 2
      (.jsDate (some 3)) (.jsDate (some 2)) (some { locale := some fullLocale }) =
      .ok (Env.render
        { calendarDayIndex := fun t => t, tzOffsetMs := fun t => t + 1,
          render := fun _ p _ _ => p }
        (some 3)
        (testPatterns (tokenFor (3 - 2)) (some (3 - (3 + 1))) (some (2 - (2 + 1)))
          (resolveWeekStartsOn (some { locale := some fullLocale }) {}))
        (resolveLocale (some { locale := some fullLocale }) {})
        (resolveWeekStartsOn (some { locale := some fullLocale }) {})) :=
  formatRelative_utc_normalization
    { calendarDayIndex := fun t => t, tzOffsetMs := fun t => t + 1,
      render := fun _ p _ _ => p } {} 2
    (.jsDate (some 3)) (.jsDate (some 2)) (some { locale := some fullLocale })
    testPatterns 3 2 (by omega) rfl rfl rfl rfl rfl

/-- C7: calling `formatRelative` with `date` and `baseDate` equal to the
same valid instant yields a calendar-day difference of `0`, selects the
`today` token, and renders the pattern the locale returns for `today`. -/
theorem formatRelative_same_instant_today (env : Env)
    (defaultOptions : DefaultOptions) (argsLength : Nat)
    (dirtyDate : DateInput) (options : Option FormatRelativeOptions)
    (fr : FormatRelativeToken → Instant → Instant → Int → String)
    (t : Int)
    (hargs : 2 ≤ argsLength)
    (hloc : (resolveLocale options defaultOptions).localize = true)
    (hlong : (resolveLocale options defaultOptions).formatLong = true)
    (hfr : (resolveLocale options defaultOptions).formatRelative = some fr)
    (hd : toDate dirtyDate = some t) :
    formatRelative env defaultOptions argsLength dirtyDate dirtyDate options =
      .ok (env.render (some t)
        (fr .today (some (t - env.tzOffsetMs t)) (some (t - env.tzOffsetMs t))
          (resolveWeekStartsOn options defaultOptions))
        (resolveLocale options defaultOptions)
        (resolveWeekStartsOn options defaultOptions)) := by
  have h := formatRelative_eq_ok env defaultOptions argsLength dirtyDate
    dirtyDate options fr t t hargs hloc hlong hfr hd hd
  rw [h, sub_self]
  rfl

/-- Witness for C7: the same concrete instant on both sides yields the
`today` pattern. -/
theorem formatRelative_same_instant_today_witness :
    formatRelative testEnv {} 2 (.jsDate (some 5)) (.jsDate (some 5))
      (some { locale := some fullLocale }) =
      .ok (testEnv.render (some 5)
        (testPatterns .today (some (5 - testEnv.tzOffsetMs 5))
          (some (5 - testEnv.tzOffsetMs 5))
          (resolveWeekStartsOn (some { locale := some fullLocale }) {}))
        (resolveLocale (some { locale := some fullLocale }) {})
        (resolveWeekStartsOn (some { locale := some fullLocale }) {})) :=
  formatRelative_same_instant_today testEnv {} 2 (.jsDate (some 5))
    (some { locale := some fullLocale }) testPatterns 5 (by omega)
    rfl rfl rfl rfl

/-- C8: `formatRelative` performs no 0–6 range validation of
`weekStartsOn`: every error it can raise is one of the five fixed errors
(arity, the three capability errors, invalid time value), so no
week-start range error of its own; and on success the coerced integer
`resolveWeekStartsOn`, whatever its value, is passed unchanged to both
the locale's pattern-selection call and the generic renderer. -/
theorem formatRelative_no_weekStartsOn_validation (env : Env)
    (defaultOptions : DefaultOptions) (argsLength : Nat)
    (dirtyDate dirtyBaseDate : DateInput)
    (options : Option FormatRelativeOptions) :
    (∀ e, formatRelative env defaultOptions argsLength dirtyDate dirtyBaseDate
        options = .error e →
      e = .typeError ("2 arguments required, but only "
        ++ toString argsLength ++ " present") ∨
      e = .rangeError "locale must contain localize property" ∨
      e = .rangeError "locale must contain formatLong property" ∨
      e = .rangeError "locale must contain formatRelative property" ∨
      e = .rangeError "Invalid time value") ∧
    (∀ fr td tb, 2 ≤ argsLength →
      (resolveLocale options defaultOptions).localize = true →
      (resolveLocale options defaultOptions).formatLong = true →
      (resolveLocale options defaultOptions).formatRelative = some fr →
      toDate dirtyDate = some td → toDate dirtyBaseDate = some tb →
      formatRelative env defaultOptions argsLength dirtyDate dirtyBaseDate
          options =
        .ok (env.render (some td)
          (fr (tokenFor (env.calendarDayIndex td - env.calendarDayIndex tb))
            (some (td - env.tzOffsetMs td))
            (some (tb - env.tzOffsetMs tb))
            (resolveWeekStartsOn options defaultOptions))
          (resolveLocale options defaultOptions)
          (resolveWeekStartsOn options defaultOptions))) := by
  constructor
  · intro e he
    by_cases hargs : argsLength < 2
    · rw [formatRelative_eq_arity_error env defaultOptions argsLength dirtyDate
        dirtyBaseDate options hargs] at he
      injection he with hmsg
      exact Or.inl hmsg.symm
    · have hargs2 : 2 ≤ argsLength := by omega
      cases hl : (resolveLocale options defaultOptions).localize with
      | false =>
        rw [formatRelative_eq_localize_error env defaultOptions argsLength
          dirtyDate dirtyBaseDate options hargs2 hl] at he
        injection he with hmsg
        exact Or.inr (Or.inl hmsg.symm)
      | true =>
        cases hlong : (resolveLocale options defaultOptions).formatLong with
        | false =>
          rw [formatRelative_eq_formatLong_error env defaultOptions argsLength
            dirtyDate dirtyBaseDate options hargs2 hl hlong] at he
          injection he with hmsg
          exact Or.inr (Or.inr (Or.inl hmsg.symm))
        | true =>
          cases hfr : (resolveLocale options defaultOptions).formatRelative with
          | none =>
            rw [formatRelative_eq_fr_error env defaultOptions argsLength
              dirtyDate dirtyBaseDate options hargs2 hl hlong hfr] at he
            injection he with hmsg
            exact Or.inr (Or.inr (Or.inr (Or.inl hmsg.symm)))
          | some fr =>
            cases hd : toDate dirtyDate with
            | none =>
              rw [formatRelative_eq_invalid_time env defaultOptions argsLength
                dirtyDate dirtyBaseDate options fr hargs2 hl hlong hfr
                (Or.inl hd)] at he
              injection he with hmsg
              exact Or.inr (Or.inr (Or.inr (Or.inr hmsg.symm)))
            | some td =>
              cases hb : toDate dirtyBaseDate with
              | none =>
                rw [formatRelative_eq_invalid_time env defaultOptions argsLength
                  dirtyDate dirtyBaseDate options fr hargs2 hl hlong hfr
                  (Or.inr hb)] at he
                injection he with hmsg
                exact Or.inr (Or.inr (Or.inr (Or.inr hmsg.symm)))
              | some tb =>
                rw [formatRelative_eq_ok env defaultOptions argsLength
                  dirtyDate dirtyBaseDate options fr td tb hargs2 hl hlong hfr
                  hd hb] at he
                exact Except.noConfusion he
  · intro fr td tb hargs hl hlong hfr hd hb
    exact formatRelative_eq_ok env defaultOptions argsLength dirtyDate
      dirtyBaseDate options fr td tb hargs hl hlong hfr hd hb

/-- Witness for C8: an explicit `weekStartsOn` of `9`, outside the 0–6
range, raises no error and is passed through unchanged. -/
theorem formatRelative_no_weekStartsOn_validation_witness :
    formatRelative testEnv {} 2 (.jsDate (some 0)) (.jsDate (some 0))
      (some { locale := some fullLocale, weekStartsOn := some 9 }) =
      .ok (testEnv.render (some 0)
        (testPatterns (tokenFor (testEnv.calendarDayIndex 0 - testEnv.calendarDayIndex 0))
          (some (0 - testEnv.tzOffsetMs 0)) (some (0 - testEnv.tzOffsetMs 0))
          (resolveWeekStartsOn
            (some { locale := some fullLocale, weekStartsOn := some 9 }) {}))
        (resolveLocale
          (some { locale := some fullLocale, weekStartsOn := some 9 }) {})
        (resolveWeekStartsOn
          (some { locale := some fullLocale, weekStartsOn := some 9 }) {})) :=
  (formatRelative_no_weekStartsOn_validation testEnv {} 2 (.jsDate (some 0))
    (.jsDate (some 0))
    (some { locale := some fullLocale, weekStartsOn := some 9 })).2
    testPatterns 0 0 (by omega) rfl rfl rfl rfl rfl

/-- C9: the error checks run in the fixed order arity, `localize`,
`formatLong`, `formatRelative`, invalid date: each implication below puts
no constraint on the later checks' inputs, so a call with several defects
raises the first applicable error in that order — in particular a missing
`formatRelative` capability wins over an unparseable date. -/
theorem formatRelative_error_precedence (env : Env)
    (defaultOptions : DefaultOptions) (argsLength : Nat)
    (dirtyDate dirtyBaseDate : DateInput)
    (options : Option FormatRelativeOptions) :
    (argsLength < 2 →
      formatRelative env defaultOptions argsLength dirtyDate dirtyBaseDate
        options = .error (.typeError ("2 arguments required, but only "
          ++ toString argsLength ++ " present"))) ∧
    (2 ≤ argsLength → (resolveLocale options defaultOptions).localize = false →
      formatRelative env defaultOptions argsLength dirtyDate dirtyBaseDate
        options = .error (.rangeError "locale must contain localize property")) ∧
    (2 ≤ argsLength → (resolveLocale options defaultOptions).localize = true →
      (resolveLocale options defaultOptions).formatLong = false →
      formatRelative env defaultOptions argsLength dirtyDate dirtyBaseDate
        options = .error (.rangeError "locale must contain formatLong property")) ∧
    (2 ≤ argsLength → (resolveLocale options defaultOptions).localize = true →
      (resolveLocale options defaultOptions).formatLong = true →
      (resolveLocale options defaultOptions).formatRelative = none →
      formatRelative env defaultOptions argsLength dirtyDate dirtyBaseDate
        options = .error (.rangeError "locale must contain formatRelative property")) ∧
    (∀ fr, 2 ≤ argsLength →
      (resolveLocale options defaultOptions).localize = true →
      (resolveLocale options defaultOptions).formatLong = true →
      (resolveLocale options defaultOptions).formatRelative = some fr →
      (toDate dirtyDate = none ∨ toDate dirtyBaseDate = none) →
      formatRelative env defaultOptions argsLength dirtyDate dirtyBaseDate
        options = .error (.rangeError "Invalid time value")) :=
  ⟨fun h => formatRelative_eq_arity_error env defaultOptions argsLength
      dirtyDate dirtyBaseDate options h,
   fun h1 h2 => formatRelative_eq_localize_error env defaultOptions argsLength
      dirtyDate dirtyBaseDate options h1 h2,
   fun h1 h2 h3 => formatRelative_eq_formatLong_error env defaultOptions
      argsLength dirtyDate dirtyBaseDate options h1 h2 h3,
   fun h1 h2 h3 h4 => formatRelative_eq_fr_error env defaultOptions argsLength
      dirtyDate dirtyBaseDate options h1 h2 h3 h4,
   fun fr h1 h2 h3 h4 h5 => formatRelative_eq_invalid_time env defaultOptions
      argsLength dirtyDate dirtyBaseDate options fr h1 h2 h3 h4 h5⟩

/-- Witness for C9: an unparseable date together with a locale missing
`formatRelative` raises the missing-capability error, not the
invalid-date error. -/
theorem formatRelative_error_precedence_witness :
    formatRelative testEnv {} 2 (.jsDate none) (.jsDate (some 0))
      (some { locale := some localeNoFr }) =
      .error (.rangeError "locale must contain formatRelative property") :=
  (formatRelative_error_precedence testEnv {} 2 (.jsDate none)
    (.jsDate (some 0)) (some { locale := some localeNoFr })).2.2.2.1
    (by omega) rfl rfl rfl

/-- C10: when neither the call options nor the process-wide defaults
supply a locale, `formatRelative` falls back to the built-in default
locale, which exposes all three capabilities, so none of the three
missing-capability errors can be raised in that configuration. -/
theorem formatRelative_defaultLocale_fallback (env : Env)
    (defaultOptions : DefaultOptions) (argsLength : Nat)
    (dirtyDate dirtyBaseDate : DateInput)
    (options : Option FormatRelativeOptions)
    (hopt : options.bind FormatRelativeOptions.locale = none)
    (hdef : defaultOptions.locale = none) :
    resolveLocale options defaultOptions = defaultLocale ∧
    defaultLocale.localize = true ∧
    defaultLocale.formatLong = true ∧
    defaultLocale.formatRelative = some defaultLocaleFormatRelative ∧
    formatRelative env defaultOptions argsLength dirtyDate dirtyBaseDate
      options ≠ .error (.rangeError "locale must contain localize property") ∧
    formatRelative env defaultOptions argsLength dirtyDate dirtyBaseDate
      options ≠ .error (.rangeError "locale must contain formatLong property") ∧
    formatRelative env defaultOptions argsLength dirtyDate dirtyBaseDate
      options ≠ .error (.rangeError "locale must contain formatRelative property") := by
  have hres : resolveLocale options defaultOptions = defaultLocale := by
    unfold resolveLocale
    rw [hopt, hdef]
    rfl
  have hl : (resolveLocale options defaultOptions).localize = true := by
    rw [hres]
    rfl
  have hlong : (resolveLocale options defaultOptions).formatLong = true := by
    rw [hres]
    rfl
  have hfr : (resolveLocale options defaultOptions).formatRelative =
      some defaultLocaleFormatRelative := by
    rw [hres]
    rfl
  refine ⟨hres, rfl, rfl, rfl, ?_, ?_, ?_⟩
  all_goals
    by_cases hargs : argsLength < 2
  all_goals
    try {
      rw [formatRelative_eq_arity_error env defaultOptions argsLength dirtyDate
        dirtyBaseDate options hargs]
      simp }
  all_goals
    have hargs2 : 2 ≤ argsLength := by omega
  all_goals
    cases hd : toDate dirtyDate with
    | none =>
      rw [formatRelative_eq_invalid_time env defaultOptions argsLength
        dirtyDate dirtyBaseDate options defaultLocaleFormatRelative hargs2 hl
        hlong hfr (Or.inl hd)]
      simp
    | some td =>
      cases hb : toDate dirtyBaseDate with
      | none =>
        rw [formatRelative_eq_invalid_time env defaultOptions argsLength
          dirtyDate dirtyBaseDate options defaultLocaleFormatRelative hargs2 hl
          hlong hfr (Or.inr hb)]
        simp
      | some tb =>
        rw [formatRelative_eq_ok env defaultOptions argsLength dirtyDate
          dirtyBaseDate options defaultLocaleFormatRelative td tb hargs2 hl
          hlong hfr hd hb]
        simp

/-- Witness for C10: with no locale option and empty process defaults,
the fallback facts hold at concrete inputs. -/
theorem formatRelative_defaultLocale_fallback_witness :
    resolveLocale none {} = defaultLocale ∧
    defaultLocale.localize = true ∧
    defaultLocale.formatLong = true ∧
    defaultLocale.formatRelative = some defaultLocaleFormatRelative ∧
    formatRelative testEnv {} 2 (.jsDate (some 0)) (.jsDate (some 0)) none ≠
      .error (.rangeError "locale must contain localize property") ∧
    formatRelative testEnv {} 2 (.jsDate (some 0)) (.jsDate (some 0)) none ≠
      .error (.rangeError "locale must contain formatLong property") ∧
    formatRelative testEnv {} 2 (.jsDate (some 0)) (.jsDate (some 0)) none ≠
      .error (.rangeError "locale must contain formatRelative property") :=
  formatRelative_defaultLocale_fallback testEnv {} 2 (.jsDate (some 0))
    (.jsDate (some 0)) none rfl rfl

end DateFns
